import Mathlib

/-!
Verification of the webgpu-cube repository (src/index.ts) against its
natural-language specification.

The development shallowly embeds the program:
* the `wgpu-matrix` library calls used by the code (`mat4.perspective`,
  `mat4.identity`, `mat4.translate`, `mat4.rotate` (= `axisRotate`),
  `mat4.multiply`, `vec3.fromValues`) as pure functions on a 16-entry
  column-major matrix record, generic over a field `α`, with the JS `Math`
  object passed explicitly as a record of functions (`JsMath`);
* the module-level mutable matrices (`projectionMatrix`,
  `modelViewProjectionMatrix`, and the per-call `viewMatrix` allocation)
  as an explicit address-indexed heap (`MatHeap`);
* the per-frame procedure `frame` as a state transformer that also emits
  the ordered list of queue and scheduling operations it performs;
* the startup / resource-creation sequence as an `Except`-style function
  over an environment describing which external steps succeed.

Machine floats are modelled by an arbitrary field (instantiated at `ℝ` when
trigonometric identities matter and at `ℚ` for concrete evaluations).
-/

namespace WebgpuCube

/-- The JavaScript `Math` object, as used by the code: the program calls
`Math.sin`, `Math.cos`, `Math.tan`, `Math.sqrt` (inside `mat4.rotate`) and
reads `Math.PI`.  These external functions are passed explicitly. -/
structure JsMath (α : Type) where
  sin : α → α
  cos : α → α
  tan : α → α
  sqrt : α → α
  pi : α

/-- The wgpu-matrix `vec3.fromValues x y z`: a 3-component vector. -/
structure Vec3 (α : Type) where
  x : α
  y : α
  z : α
deriving DecidableEq

/-- A 4×4 matrix stored as 16 contiguous values in column-major order,
exactly like the `Float32Array(16)` backing a wgpu-matrix `Mat4`:
field `vK` is array slot `K`, holding entry (row `K % 4`, column `K / 4`). -/
structure Mat4 (α : Type) where
  v0 : α
  v1 : α
  v2 : α
  v3 : α
  v4 : α
  v5 : α
  v6 : α
  v7 : α
  v8 : α
  v9 : α
  v10 : α
  v11 : α
  v12 : α
  v13 : α
  v14 : α
  v15 : α
deriving DecidableEq

namespace Mat4

variable {α : Type} [Field α]

/-- The wgpu-matrix `mat4.create()`: a fresh zero-filled `Float32Array(16)`
(wgpu-matrix `create` with no arguments leaves every slot at 0). -/
def create : Mat4 α :=
  ⟨0, 0, 0, 0, 0, 0, 0, 0, 0, 0, 0, 0, 0, 0, 0, 0⟩

/-- The wgpu-matrix `mat4.identity()`. -/
def identity : Mat4 α :=
  ⟨1, 0, 0, 0, 0, 1, 0, 0, 0, 0, 1, 0, 0, 0, 0, 1⟩

/-- The wgpu-matrix `mat4.multiply a b`: slot `4*j+i` of the result is
`Σ_k a[4*k+i] * b[4*j+k]`, i.e. the column-major matrix product `a * b`. -/
def multiply (a b : Mat4 α) : Mat4 α where
  v0 := a.v0 * b.v0 + a.v4 * b.v1 + a.v8 * b.v2 + a.v12 * b.v3
  v1 := a.v1 * b.v0 + a.v5 * b.v1 + a.v9 * b.v2 + a.v13 * b.v3
  v2 := a.v2 * b.v0 + a.v6 * b.v1 + a.v10 * b.v2 + a.v14 * b.v3
  v3 := a.v3 * b.v0 + a.v7 * b.v1 + a.v11 * b.v2 + a.v15 * b.v3
  v4 := a.v0 * b.v4 + a.v4 * b.v5 + a.v8 * b.v6 + a.v12 * b.v7
  v5 := a.v1 * b.v4 + a.v5 * b.v5 + a.v9 * b.v6 + a.v13 * b.v7
  v6 := a.v2 * b.v4 + a.v6 * b.v5 + a.v10 * b.v6 + a.v14 * b.v7
  v7 := a.v3 * b.v4 + a.v7 * b.v5 + a.v11 * b.v6 + a.v15 * b.v7
  v8 := a.v0 * b.v8 + a.v4 * b.v9 + a.v8 * b.v10 + a.v12 * b.v11
  v9 := a.v1 * b.v8 + a.v5 * b.v9 + a.v9 * b.v10 + a.v13 * b.v11
  v10 := a.v2 * b.v8 + a.v6 * b.v9 + a.v10 * b.v10 + a.v14 * b.v11
  v11 := a.v3 * b.v8 + a.v7 * b.v9 + a.v11 * b.v10 + a.v15 * b.v11
  v12 := a.v0 * b.v12 + a.v4 * b.v13 + a.v8 * b.v14 + a.v12 * b.v15
  v13 := a.v1 * b.v12 + a.v5 * b.v13 + a.v9 * b.v14 + a.v13 * b.v15
  v14 := a.v2 * b.v12 + a.v6 * b.v13 + a.v10 * b.v14 + a.v14 * b.v15
  v15 := a.v3 * b.v12 + a.v7 * b.v13 + a.v11 * b.v14 + a.v15 * b.v15

/-- The wgpu-matrix `mat4.translate m v`: copies slots 0–11 and replaces the
fourth column by `m` applied to the homogeneous translation vector. -/
def translate (m : Mat4 α) (v : Vec3 α) : Mat4 α :=
  { m with
    v12 := m.v0 * v.x + m.v4 * v.y + m.v8 * v.z + m.v12
    v13 := m.v1 * v.x + m.v5 * v.y + m.v9 * v.z + m.v13
    v14 := m.v2 * v.x + m.v6 * v.y + m.v10 * v.z + m.v14
    v15 := m.v3 * v.x + m.v7 * v.y + m.v11 * v.z + m.v15 }

/-- The wgpu-matrix `mat4.rotate m axis angle` (an alias of `mat4.axisRotate`): normalizes the axis by `Math.sqrt`, forms the axis-angle
rotation coefficients, and post-multiplies `m` by the rotation (slots 12–15
are copied from `m`). -/
def rotate (M : JsMath α) (m : Mat4 α) (axis : Vec3 α) (angleInRadians : α) :
    Mat4 α :=
  let n := M.sqrt (axis.x * axis.x + axis.y * axis.y + axis.z * axis.z)
  let x := axis.x / n
  let y := axis.y / n
  let z := axis.z / n
  let xx := x * x
  let yy := y * y
  let zz := z * z
  let c := M.cos angleInRadians
  let s := M.sin angleInRadians
  let oneMinusCosine := 1 - c
  let r00 := xx + (1 - xx) * c
  let r01 := x * y * oneMinusCosine + z * s
  let r02 := x * z * oneMinusCosine - y * s
  let r10 := x * y * oneMinusCosine - z * s
  let r11 := yy + (1 - yy) * c
  let r12 := y * z * oneMinusCosine + x * s
  let r20 := x * z * oneMinusCosine + y * s
  let r21 := y * z * oneMinusCosine - x * s
  let r22 := zz + (1 - zz) * c
  { v0 := r00 * m.v0 + r01 * m.v4 + r02 * m.v8
    v1 := r00 * m.v1 + r01 * m.v5 + r02 * m.v9
    v2 := r00 * m.v2 + r01 * m.v6 + r02 * m.v10
    v3 := r00 * m.v3 + r01 * m.v7 + r02 * m.v11
    v4 := r10 * m.v0 + r11 * m.v4 + r12 * m.v8
    v5 := r10 * m.v1 + r11 * m.v5 + r12 * m.v9
    v6 := r10 * m.v2 + r11 * m.v6 + r12 * m.v10
    v7 := r10 * m.v3 + r11 * m.v7 + r12 * m.v11
    v8 := r20 * m.v0 + r21 * m.v4 + r22 * m.v8
    v9 := r20 * m.v1 + r21 * m.v5 + r22 * m.v9
    v10 := r20 * m.v2 + r21 * m.v6 + r22 * m.v10
    v11 := r20 * m.v3 + r21 * m.v7 + r22 * m.v11
    v12 := m.v12
    v13 := m.v13
    v14 := m.v14
    v15 := m.v15 }

/-- The wgpu-matrix `mat4.perspective fov aspect zNear zFar`
(the finite-`zFar` branch; the code passes `zFar = 100.0`):
`f = Math.tan(Math.PI * 0.5 - 0.5 * fov)`, `rangeInv = 1 / (zNear - zFar)`. -/
def perspective (M : JsMath α) (fieldOfViewYInRadians aspect zNear zFar : α) :
    Mat4 α :=
  let f := M.tan (M.pi * (1 / 2) - (1 / 2) * fieldOfViewYInRadians)
  let rangeInv := 1 / (zNear - zFar)
  { v0 := f / aspect, v1 := 0, v2 := 0, v3 := 0
    v4 := 0, v5 := f, v6 := 0, v7 := 0
    v8 := 0, v9 := 0, v10 := zFar * rangeInv, v11 := -1
    v12 := 0, v13 := 0, v14 := zFar * zNear * rangeInv, v15 := 0 }

end Mat4

section TransformationEngine

variable {α : Type} [Field α]

/-- The module-level `projectionMatrix` (src/index.ts line 180): computed once at startup from
the fixed canvas aspect ratio. -/
def projectionMatrix (M : JsMath α) (aspect : α) : Mat4 α :=
  Mat4.perspective M ((2 * M.pi) / 5) aspect 1 100

/-- The rotation axis built at src/index.ts line 194:
`vec3.fromValues(Math.sin now, Math.cos now, 0)`. -/
def rotationAxis (M : JsMath α) (now : α) : Vec3 α :=
  ⟨M.sin now, M.cos now, 0⟩

/-- The axis `getTransformationMatrix` passes to `mat4.rotate` when called at
clock reading `dateNowMs` (what `Date.now()` returned, in milliseconds):
lines 191–194 use `now = Date.now() / 5000`. -/
def gtmAxis (M : JsMath α) (dateNowMs : α) : Vec3 α :=
  rotationAxis M (dateNowMs / 5000)

/-- The function `getTransformationMatrix` (src/index.ts lines 188–202), as a pure function
of the startup aspect ratio and the value `Date.now()` returned at the call
(milliseconds since the epoch).  The in-place writes to `viewMatrix` and the
module-level output buffer are handled by the heap model below; this is the
value computed. -/
def getTransformationMatrix (M : JsMath α) (aspect dateNowMs : α) : Mat4 α :=
  let viewMatrix : Mat4 α := Mat4.identity
  let viewMatrix := Mat4.translate viewMatrix ⟨0, 0, -10⟩
  let now := dateNowMs / 5000
  let viewMatrix := Mat4.rotate M viewMatrix (rotationAxis M now) 1
  Mat4.multiply (projectionMatrix M aspect) viewMatrix

/-- The `getTransformationMatrix` of the second variant (the commented-out body of
`main` in the second part of src/index.ts, lines 407–421): identical text
except the camera translation is `(0, 0, -4)` and the divisor is `1000`. -/
def getTransformationMatrix2 (M : JsMath α) (aspect dateNowMs : α) : Mat4 α :=
  let viewMatrix : Mat4 α := Mat4.identity
  let viewMatrix := Mat4.translate viewMatrix ⟨0, 0, -4⟩
  let now := dateNowMs / 1000
  let viewMatrix := Mat4.rotate M viewMatrix ⟨M.sin now, M.cos now, 0⟩ 1
  Mat4.multiply (projectionMatrix M aspect) viewMatrix

/-- The common shape of the two variants' transformation functions, with the
camera distance and the time-normalization divisor as parameters. -/
def getTransformationMatrixGen (M : JsMath α) (cameraZ divisor aspect dateNowMs : α) :
    Mat4 α :=
  let viewMatrix : Mat4 α := Mat4.identity
  let viewMatrix := Mat4.translate viewMatrix ⟨0, 0, cameraZ⟩
  let now := dateNowMs / divisor
  let viewMatrix := Mat4.rotate M viewMatrix ⟨M.sin now, M.cos now, 0⟩ 1
  Mat4.multiply (projectionMatrix M aspect) viewMatrix

end TransformationEngine

section SpecMatrices

variable {α : Type} [Field α]

/-- Reading the 16 contiguous values of a `Mat4` in column-major order as a
mathematical 4×4 matrix: entry (row `i`, column `j`) is slot `4*j + i`. -/
def Mat4.toMatrix (m : Mat4 α) : Matrix (Fin 4) (Fin 4) α :=
  Matrix.of ![![m.v0, m.v4, m.v8, m.v12],
              ![m.v1, m.v5, m.v9, m.v13],
              ![m.v2, m.v6, m.v10, m.v14],
              ![m.v3, m.v7, m.v11, m.v15]]

/-- Spec-side (§4.3 of the spec): the standard perspective projection matrix
for column vectors with focal factor `f` (the cotangent of half the vertical
field of view), aspect ratio `aspect`, near plane `near`, far plane `far`. -/
def perspective4 (f aspect near far : α) : Matrix (Fin 4) (Fin 4) α :=
  Matrix.of ![![f / aspect, 0, 0, 0],
              ![0, f, 0, 0],
              ![0, 0, far / (near - far), near * far / (near - far)],
              ![0, 0, -1, 0]]

/-- Spec-side: the homogeneous translation matrix by `(tx, ty, tz)` for column
vectors ("the identity translated by (0, 0, −10)"). -/
def translation4 (tx ty tz : α) : Matrix (Fin 4) (Fin 4) α :=
  Matrix.of ![![1, 0, 0, tx],
              ![0, 1, 0, ty],
              ![0, 0, 1, tz],
              ![0, 0, 0, 1]]

/-- Spec-side: the standard axis–angle (Rodrigues) rotation matrix about the
unit axis `(x, y, z)`, for an angle with cosine `c` and sine `s`, acting on
column vectors. -/
def rodrigues4 (x y z c s : α) : Matrix (Fin 4) (Fin 4) α :=
  Matrix.of ![![c + x * x * (1 - c), x * y * (1 - c) - z * s, x * z * (1 - c) + y * s, 0],
              ![x * y * (1 - c) + z * s, c + y * y * (1 - c), y * z * (1 - c) - x * s, 0],
              ![x * z * (1 - c) - y * s, y * z * (1 - c) + x * s, c + z * z * (1 - c), 0],
              ![0, 0, 0, 1]]

end SpecMatrices

section HeapModel

variable {α : Type} [Field α]

/-- The JS heap restricted to the `Float32Array(16)` matrices the module
manipulates: an address-indexed store plus an allocation counter.  Fresh
arrays (`mat4.create()`, `mat4.identity()`, `mat4.perspective(...)` with no
destination) take the next address. -/
structure MatHeap (α : Type) where
  store : ℕ → Mat4 α
  next : ℕ

/-- Overwrite the array at `addr` in place (a wgpu-matrix call with `dst`). -/
def MatHeap.write (h : MatHeap α) (addr : ℕ) (m : Mat4 α) : MatHeap α :=
  ⟨fun a => if a = addr then m else h.store a, h.next⟩

/-- Allocate a fresh array holding `m`; returns its address. -/
def MatHeap.alloc (h : MatHeap α) (m : Mat4 α) : ℕ × MatHeap α :=
  (h.next, ⟨fun a => if a = h.next then m else h.store a, h.next + 1⟩)

/-- The module-level bindings captured by the closures `getTransformationMatrix`
and `frame` (src/index.ts lines 179–186): the address of the startup
`projectionMatrix`, the address of the single `modelViewProjectionMatrix`
buffer, and the fixed aspect ratio. -/
structure ModuleCtx (α : Type) where
  projAddr : ℕ
  mvpAddr : ℕ
  aspect : α

/-- Lines 179–186 of src/index.ts: compute the aspect ratio, allocate
`projectionMatrix = mat4.perspective(...)`, allocate
`modelViewProjectionMatrix = mat4.create()`. -/
def moduleInit (M : JsMath α) (aspect : α) (h : MatHeap α) :
    ModuleCtx α × MatHeap α :=
  let pa := h.alloc (projectionMatrix M aspect)
  let ma := pa.2.alloc Mat4.create
  (⟨pa.1, ma.1, aspect⟩, ma.2)

/-- The procedure `getTransformationMatrix` (lines 188–202) with its store effects explicit:
allocates a fresh `viewMatrix` (`mat4.identity()`), updates it in place
(`mat4.translate(viewMatrix, …, viewMatrix)`, `mat4.rotate(…, viewMatrix)`),
writes the product into the module-level `modelViewProjectionMatrix` buffer
(`mat4.multiply(projectionMatrix, viewMatrix, modelViewProjectionMatrix)`),
and returns that buffer's address — not a fresh array. -/
def getTransformationMatrixRef (M : JsMath α) (ctx : ModuleCtx α)
    (dateNowMs : α) (h : MatHeap α) : ℕ × MatHeap α :=
  let va := h.alloc Mat4.identity
  let viewAddr := va.1
  let h1 := va.2.write viewAddr (Mat4.translate (va.2.store viewAddr) ⟨0, 0, -10⟩)
  let now := dateNowMs / 5000
  let h2 := h1.write viewAddr
    (Mat4.rotate M (h1.store viewAddr) (rotationAxis M now) 1)
  let h3 := h2.write ctx.mvpAddr
    (Mat4.multiply (h2.store ctx.projAddr) (h2.store viewAddr))
  (ctx.mvpAddr, h3)

/-- The heap invariant established by module initialization: the two
module-level arrays live below the allocation frontier, are distinct, and the
projection array still holds the startup projection matrix. -/
def HeapWF (M : JsMath α) (ctx : ModuleCtx α) (h : MatHeap α) : Prop :=
  ctx.projAddr < h.next ∧ ctx.mvpAddr < h.next ∧ ctx.projAddr ≠ ctx.mvpAddr ∧
    h.store ctx.projAddr = projectionMatrix M ctx.aspect

end HeapModel

section MeshData

/-- Modelled from the spec: the mesh module `src/meshes/cube.ts` is imported by
src/index.ts but is not part of the repository snapshot.  Per the spec (§3,
§4.1) a vertex is a packed record of a position (4×float32) followed by a uv
(2×float32), and the cube is 36 vertices (6 faces × 2 triangles × 3 vertices),
so the exported constants are: 36 vertices, 24-byte stride, position at byte
offset 0, uv at byte offset 16. -/
def cubeVertexCount : ℕ := 36

/-- Modelled from the spec: bytes per vertex — one position (4×4 bytes)
followed by one uv (2×4 bytes), packed. -/
def cubeVertexSize : ℕ := 4 * 4 + 2 * 4

/-- Modelled from the spec: byte offset of the position attribute. -/
def cubePositionOffset : ℕ := 0

/-- Modelled from the spec: byte offset of the uv attribute (after the
4×float32 position). -/
def cubeUVOffset : ℕ := 4 * 4

/-- Modelled from the spec: number of float32 values in the interleaved cube
vertex array (36 vertices × 6 floats). -/
def cubeVertexArrayLength : ℕ := 216

/-- Byte size of a vertex-attribute format string as WebGPU defines it (only
the two formats the pipeline uses). -/
def vertexFormatBytes : String → ℕ
  | "float32x4" => 16
  | "float32x2" => 8
  | _ => 0

/-- Modelled from the spec (§4.1): mesh data validated at construction — the
constructor fails fast unless the byte length of the interleaved float data
equals vertex count × stride. -/
structure MeshData (α : Type) where
  floats : List α
  count : ℕ
  stride : ℕ

/-- Modelled from the spec (§4.1): fail-fast mesh constructor. -/
def mkMesh {α : Type} (floats : List α) (count stride : ℕ) :
    Option (MeshData α) :=
  if 4 * floats.length = count * stride then some ⟨floats, count, stride⟩
  else none

end MeshData

section GpuModel

variable {α : Type} [Field α]

/-- The pipeline state object built by `createRenderPipeline`
(src/index.ts lines 79–133), as the immutable description it is. -/
structure PipelineDesc where
  layout : String
  vertexEntryPoint : String
  arrayStride : ℕ
  positionShaderLocation : ℕ
  positionOffset : ℕ
  positionFormat : String
  uvShaderLocation : ℕ
  uvOffset : ℕ
  uvFormat : String
  fragmentEntryPoint : String
  targetFormat : String
  topology : String
  cullMode : String
  depthWriteEnabled : Bool
  depthCompare : String
  depthFormat : String
deriving DecidableEq

/-- The pipeline descriptor exactly as src/index.ts lines 79–133 build it. -/
def mainPipeline (textureFormat : String) : PipelineDesc where
  layout := "auto"
  vertexEntryPoint := "main"
  arrayStride := cubeVertexSize
  positionShaderLocation := 0
  positionOffset := cubePositionOffset
  positionFormat := "float32x4"
  uvShaderLocation := 1
  uvOffset := cubeUVOffset
  uvFormat := "float32x2"
  fragmentEntryPoint := "main"
  targetFormat := textureFormat
  topology := "triangle-list"
  cullMode := "back"
  depthWriteEnabled := true
  depthCompare := "less"
  depthFormat := "depth24plus"

/-- Depth resolution in bits of a WebGPU depth format string. -/
def depthFormatBits : String → ℕ
  | "depth16unorm" => 16
  | "depth24plus" => 24
  | "depth24plus-stencil8" => 24
  | "depth32float" => 32
  | _ => 0

/-- The GPU Resource Set built once by `main` (src/index.ts lines 70–157):
the vertex buffer (with the mesh floats written at creation), the pipeline
state, the depth texture, the uniform buffer size, and the bind group
(binding 0 of group 0 ↦ uniform buffer). -/
structure Resources (α : Type) where
  verticesBufferSize : ℕ
  verticesBufferData : List α
  pipeline : PipelineDesc
  depthTextureSize : ℕ × ℕ
  depthTextureFormat : String
  uniformBufferSize : ℕ
  bindGroupBinding : ℕ
deriving DecidableEq

/-- The resources exactly as `main` creates them, from the imported cube data,
the preferred canvas format, and the canvas dimensions. -/
def mainResources (cubeData : List α) (textureFormat : String) (w h : ℕ) :
    Resources α where
  verticesBufferSize := 4 * cubeData.length
  verticesBufferData := cubeData
  pipeline := mainPipeline textureFormat
  depthTextureSize := (w, h)
  depthTextureFormat := "depth24plus"
  uniformBufferSize := 4 * 16
  bindGroupBinding := 0

/-- The clear color of the color attachment. -/
structure ClearColor (α : Type) where
  r : α
  g : α
  b : α
  a : α
deriving DecidableEq

/-- The `renderPassDescriptor` object (src/index.ts lines 159–177).  Its
`colorView` starts out unassigned (`view: undefined — assigned later`) and is
re-assigned by every tick; everything else is fixed at creation. -/
structure RenderPassDesc (α : Type) where
  colorView : Option ℕ
  clearValue : ClearColor α
  loadOp : String
  storeOp : String
  depthView : ℕ
  depthClearValue : α
  depthLoadOp : String
  depthStoreOp : String
deriving DecidableEq

/-- The render pass descriptor exactly as `main` creates it (lines 159–177),
given the id of the depth texture's view. -/
def mainPassDesc (depthView : ℕ) : RenderPassDesc α where
  colorView := none
  clearValue := ⟨1 / 2, 1 / 2, 1 / 2, 1⟩
  loadOp := "clear"
  storeOp := "store"
  depthView := depthView
  depthClearValue := 1
  depthLoadOp := "clear"
  depthStoreOp := "store"

/-- Commands recorded inside a render pass (lines 220–225). -/
inductive PassCmd where
  | setPipeline
  | setBindGroup (index : ℕ)
  | setVertexBuffer (slot : ℕ)
  | draw (vertexCount : ℕ)
  | endPass
deriving DecidableEq

/-- Work enqueued on the device queue: a `writeBuffer` into the uniform buffer
(with its byte offset, source byte offset and byte length as the code passes
them), or the submission of one encoded render pass. -/
inductive QueueOp (α : Type) where
  | writeBuffer (dstByteOffset : ℕ) (data : Mat4 α) (srcByteOffset byteLength : ℕ)
  | submit (desc : RenderPassDesc α) (cmds : List PassCmd)
deriving DecidableEq

/-- Everything one tick of `frame` does, in program order. -/
inductive TickEvent (α : Type) where
  | queued (op : QueueOp α)
  | acquiredView (viewId : ℕ)
  | scheduledNextFrame
deriving DecidableEq

/-- The 16 float32 slots of a `Mat4` as a byte-offset-addressed sequence
(slot `i` holds bytes `4*i … 4*i+3`); reads past the array give 0. -/
def Mat4.flat (m : Mat4 α) : ℕ → α := fun i =>
  [m.v0, m.v1, m.v2, m.v3, m.v4, m.v5, m.v6, m.v7,
   m.v8, m.v9, m.v10, m.v11, m.v12, m.v13, m.v14, m.v15].getD i 0

/-- The 64-byte serialization of a matrix, viewed as the contents of the
64-byte uniform buffer (16 float32 cells). -/
def serialize (m : Mat4 α) : Fin 16 → α := fun i => m.flat i.val

/-- GPU-side semantics of `queue.writeBuffer(buffer, dstByteOffset, data,
srcByteOffset, byteLength)` on the 64-byte uniform buffer: float32 cell `i`
(bytes `4*i…4*i+3`) is replaced when it lies in the written range. -/
def applyWrite (u : Fin 16 → α) (dstByteOffset : ℕ) (data : Mat4 α)
    (srcByteOffset byteLength : ℕ) : Fin 16 → α := fun i =>
  if dstByteOffset / 4 ≤ i.val ∧ i.val < dstByteOffset / 4 + byteLength / 4 then
    data.flat (i.val - dstByteOffset / 4 + srcByteOffset / 4)
  else u i

/-- Effect of one queue operation on the uniform buffer contents. -/
def applyOp (u : Fin 16 → α) : QueueOp α → (Fin 16 → α)
  | .writeBuffer o d so bl => applyWrite u o d so bl
  | .submit _ _ => u

/-- One draw observed while the queue executes: the uniform buffer contents at
the moment the submitted pass runs, the vertex counts of its draw calls, and
the color view it targets. -/
structure DrawRecord (α : Type) where
  uniformAt : Fin 16 → α
  vertexCounts : List ℕ
  viewId : Option ℕ

/-- The queue processes enqueued work in submission order: writes update the
uniform buffer, and each submitted pass sees the buffer as left by everything
enqueued before it. -/
def runQueue (u : Fin 16 → α) : List (TickEvent α) → (Fin 16 → α) × List (DrawRecord α)
  | [] => (u, [])
  | .queued (.writeBuffer o d so bl) :: rest =>
      runQueue (applyWrite u o d so bl) rest
  | .queued (.submit desc cmds) :: rest =>
      let r := runQueue u rest
      (r.1, ⟨u, cmds.filterMap fun c =>
        match c with
        | .draw n => some n
        | _ => none, desc.colorView⟩ :: r.2)
  | .acquiredView _ :: rest => runQueue u rest
  | .scheduledNextFrame :: rest => runQueue u rest

/-- The whole mutable state `frame` touches: the JS matrix heap, the GPU
resource set, the render pass descriptor, the uniform buffer contents, and
the surface's counter of handed-out swapchain texture views. -/
structure SysState (α : Type) where
  heap : MatHeap α
  ctx : ModuleCtx α
  resources : Resources α
  passDesc : RenderPassDesc α
  uniform : Fin 16 → α
  surfaceNext : ℕ

/-- One tick of `frame` (src/index.ts lines 204–229) at clock reading
`dateNowMs`: compute the matrix (into the module buffer, keeping a reference);
enqueue `writeBuffer(uniformBuffer, 0, tm.buffer, tm.byteOffset = 0,
tm.byteLength = 64)`; acquire a fresh swapchain view and assign it into the
descriptor; encode the pass (`setPipeline`, `setBindGroup(0, …)`,
`setVertexBuffer(0, …)`, `draw(cubeVertexCount)`, `end`) and submit it; then
`requestAnimationFrame(frame)`.  The queue's two operations of this tick are
applied to the uniform buffer in submission order. -/
def frame (M : JsMath α) (dateNowMs : α) (s : SysState α) :
    SysState α × List (TickEvent α) :=
  let r := getTransformationMatrixRef M s.ctx dateNowMs s.heap
  let tm := r.2.store r.1
  let wb : QueueOp α := .writeBuffer 0 tm 0 64
  let viewId := s.surfaceNext
  let desc := { s.passDesc with colorView := some viewId }
  let cmds : List PassCmd :=
    [.setPipeline, .setBindGroup 0, .setVertexBuffer 0,
     .draw cubeVertexCount, .endPass]
  let sub : QueueOp α := .submit desc cmds
  (⟨r.2, s.ctx, s.resources, desc, applyOp (applyOp s.uniform wb) sub,
      s.surfaceNext + 1⟩,
   [.queued wb, .acquiredView viewId, .queued sub, .scheduledNextFrame])

/-- The frame loop: `requestAnimationFrame` runs the ticks strictly one after
another — tick `n+1` starts only after tick `n` has submitted and returned —
so the run over a list of tick timestamps is a sequential fold, concatenating
the per-tick event lists. -/
def runTicks (M : JsMath α) : List α → SysState α → SysState α × List (TickEvent α)
  | [], s => (s, [])
  | t :: ts, s =>
      let r := frame M t s
      let r' := runTicks M ts r.1
      (r'.1, r.2 ++ r'.2)

end GpuModel

section Startup

variable {α : Type} [Field α]

/-- The environment the module-level initialization code (src/index.ts lines
13–56) probes: `navigator.gpu` presence, the canvas element, the result of
`requestAdapter()` (rejection, resolution with `null`, or an adapter),
the result of `requestDevice()`, and `getContext("webgpu")`. -/
structure Env where
  hasNavigatorGpu : Bool
  hasCanvas : Bool
  adapterRequest : Except Unit (Option Unit)
  deviceRequest : Option Unit
  hasContext : Bool

/-- Outcomes of the six GPU Resource Set creation steps performed inside
`main` (spec §4.2): vertex buffer allocation + mesh upload, shader module
compilation (both stages), pipeline construction, depth texture allocation,
uniform buffer allocation, bind group construction.  `main` performs no
recovery: a WebGPU exception in any step aborts the rest of the function,
including the `requestAnimationFrame(frame)` call at its end. -/
structure GpuSteps where
  vertexBufferOk : Bool
  shadersOk : Bool
  pipelineOk : Bool
  depthTextureOk : Bool
  uniformBufferOk : Bool
  bindGroupOk : Bool
deriving DecidableEq

def GpuSteps.allOk (g : GpuSteps) : Bool :=
  g.vertexBufferOk && g.shadersOk && g.pipelineOk && g.depthTextureOk &&
    g.uniformBufferOk && g.bindGroupOk

/-- The whole initialization path of the first (active) variant: the guard
chain of lines 13–32 (each failure `throw`s with the code's message and
nothing further runs), then `main` (lines 67–232) building the six resources
in order and finally scheduling the frame loop.  Returns the constructed
resources (or the error message) together with whether
`requestAnimationFrame(frame)` was reached — i.e. whether the Frame Loop left
Idle. -/
def boot (env : Env) (g : GpuSteps) (cubeData : List α)
    (textureFormat : String) (w h : ℕ) :
    Except String (Resources α) × Bool :=
  if ¬ env.hasNavigatorGpu then
    (.error "WebGPU not suported on this browser", false)
  else if ¬ env.hasCanvas then (.error "Canvas not found", false)
  else
    match env.adapterRequest with
    | .error _ => (.error "No appropriate GPUAdapter found.", false)
    | .ok none => (.error "Adapter not found", false)
    | .ok (some _) =>
      match env.deviceRequest with
      | none => (.error "device not found", false)
      | some _ =>
        if ¬ env.hasContext then (.error "Context not found", false)
        else if ¬ g.vertexBufferOk then
          (.error "vertex buffer creation failed", false)
        else if ¬ g.shadersOk then
          (.error "shader module compilation failed", false)
        else if ¬ g.pipelineOk then
          (.error "render pipeline creation failed", false)
        else if ¬ g.depthTextureOk then
          (.error "depth texture creation failed", false)
        else if ¬ g.uniformBufferOk then
          (.error "uniform buffer creation failed", false)
        else if ¬ g.bindGroupOk then
          (.error "bind group creation failed", false)
        else (.ok (mainResources cubeData textureFormat w h), true)

/-- The `main` of the second variant (src/index.ts lines 286–452): its entire
body except `console.log('---', args)` is commented out — it creates no
resources, records no passes, and never calls `requestAnimationFrame`. -/
inductive Main2Event where
  | consoleLog
deriving DecidableEq

def main2 : List Main2Event := [.consoleLog]

/-- The initialization path of the second variant (lines 233–284): the same
guard chain, then `main2`.  The boolean records whether a frame loop was
scheduled — `main2` never schedules one. -/
def boot2 (env : Env) : Except String (List Main2Event) × Bool :=
  if ¬ env.hasNavigatorGpu then
    (.error "WebGPU not suported on this browser", false)
  else if ¬ env.hasCanvas then (.error "Canvas not found", false)
  else
    match env.adapterRequest with
    | .error _ => (.error "No appropriate GPUAdapter found.", false)
    | .ok none => (.error "Adapter not found", false)
    | .ok (some _) =>
      match env.deviceRequest with
      | none => (.error "device not found", false)
      | some _ =>
        if ¬ env.hasContext then (.error "Context not found", false)
        else (.ok main2, false)

end Startup

section SpecSideAndWitnessDefs

variable {α : Type} [Field α]

/-- Spec-side (§4.4 / §8): the draw records a run of the frame loop over the
given tick timestamps must produce — the `n`-th submitted pass draws the full
vertex count with the matrix of the `n`-th tick in the uniform buffer,
targeting the `n`-th freshly acquired swapchain view. -/
def expectedDraws (M : JsMath α) (aspect : α) (view0 : ℕ) :
    List α → List (DrawRecord α)
  | [] => []
  | t :: ts =>
      ⟨serialize (getTransformationMatrix M aspect t), [cubeVertexCount],
        some view0⟩ :: expectedDraws M aspect (view0 + 1) ts

/-- A rational stand-in for the `Math` object, used only to evaluate the model
on concrete inputs (the structural theorems hold for any `JsMath`). -/
def qMath : JsMath ℚ :=
  ⟨fun x => x, fun x => 1 - x, fun x => x, fun _ => 1, 3⟩

/-- An empty concrete heap. -/
def qHeap0 : MatHeap ℚ := ⟨fun _ => Mat4.create, 0⟩

/-- The module context and heap after module initialization on `qHeap0`. -/
def qCtx : ModuleCtx ℚ := (moduleInit qMath 1 qHeap0).1

def qHeap : MatHeap ℚ := (moduleInit qMath 1 qHeap0).2

/-- A concrete post-initialization system state. -/
def qSys : SysState ℚ :=
  ⟨qHeap, qCtx, mainResources [] "bgra8unorm" 640 480, mainPassDesc 7,
    fun _ => 0, 0⟩

end SpecSideAndWitnessDefs

section Lemmas

variable {α : Type} [Field α]

theorem Mat4.toMatrix_multiply (a b : Mat4 α) :
    (Mat4.multiply a b).toMatrix = a.toMatrix * b.toMatrix := by
  ext i j
  fin_cases i <;> fin_cases j <;>
    simp [Mat4.toMatrix, Mat4.multiply, Matrix.mul_apply, Fin.sum_univ_four,
      Matrix.cons_val_zero, Matrix.cons_val_one, Matrix.head_cons,
      Matrix.cons_val_two, Matrix.cons_val_three, Matrix.vecTail, Matrix.vecHead]

theorem Mat4.toMatrix_perspective (M : JsMath α) (fov aspect near far : α) :
    (Mat4.perspective M fov aspect near far).toMatrix =
      perspective4 (M.tan (M.pi * (1 / 2) - (1 / 2) * fov)) aspect near far := by
  ext i j
  fin_cases i <;> fin_cases j <;>
    simp [Mat4.toMatrix, Mat4.perspective, perspective4,
      Matrix.cons_val_zero, Matrix.cons_val_one, Matrix.head_cons,
      Matrix.cons_val_two, Matrix.cons_val_three, Matrix.vecTail, Matrix.vecHead] <;>
    ring

theorem Mat4.toMatrix_translate_rotate (M : JsMath α) (v axis : Vec3 α) (θ : α)
    (hn : M.sqrt (axis.x * axis.x + axis.y * axis.y + axis.z * axis.z) = 1) :
    (Mat4.rotate M (Mat4.translate Mat4.identity v) axis θ).toMatrix =
      translation4 v.x v.y v.z *
        rodrigues4 axis.x axis.y axis.z (M.cos θ) (M.sin θ) := by
  obtain ⟨x, y, z⟩ := axis
  obtain ⟨tx, ty, tz⟩ := v
  simp only [Vec3.x, Vec3.y, Vec3.z] at hn ⊢
  simp only [Mat4.rotate, Mat4.translate, Mat4.identity, hn, div_one,
    one_mul, mul_one, zero_mul, mul_zero, add_zero, zero_add]
  ext i j
  fin_cases i <;> fin_cases j <;>
    simp [Mat4.toMatrix, translation4, rodrigues4, Matrix.mul_apply,
      Fin.sum_univ_four, Matrix.cons_val_zero, Matrix.cons_val_one,
      Matrix.head_cons, Matrix.cons_val_two, Matrix.cons_val_three,
      Matrix.vecTail, Matrix.vecHead] <;>
    ring

/-- The structural decomposition of `getTransformationMatrix`: read column-major,
its output is the perspective matrix times (translation times axis rotation),
whenever `Math.sqrt` maps the squared norm of the axis to 1. -/
theorem gtm_decomp (M : JsMath α) (a t : α)
    (hn : M.sqrt (M.sin (t / 5000) * M.sin (t / 5000) +
        M.cos (t / 5000) * M.cos (t / 5000) + 0 * 0) = 1) :
    (getTransformationMatrix M a t).toMatrix =
      perspective4 (M.tan (M.pi * (1 / 2) - (1 / 2) * ((2 * M.pi) / 5))) a 1 100 *
        (translation4 0 0 (-10) *
          rodrigues4 (M.sin (t / 5000)) (M.cos (t / 5000)) 0 (M.cos 1) (M.sin 1)) := by
  unfold getTransformationMatrix projectionMatrix rotationAxis
  rw [Mat4.toMatrix_multiply, Mat4.toMatrix_perspective,
    Mat4.toMatrix_translate_rotate M ⟨0, 0, -10⟩ ⟨M.sin (t / 5000), M.cos (t / 5000), 0⟩ 1 hn]

/-- The decomposition instantiated with the real `Math` functions: the focal
factor really is the cotangent of half the 2π/5 field of view, and the
sqrt-normalization of the axis `(sin, cos, 0)` is trivial. -/
theorem gtm_real_decomp (a t : ℝ) :
    (getTransformationMatrix ⟨Real.sin, Real.cos, Real.tan, Real.sqrt, Real.pi⟩
        a t).toMatrix =
      perspective4 ((Real.tan (2 * Real.pi / 5 / 2))⁻¹) a 1 100 *
        (translation4 0 0 (-10) *
          rodrigues4 (Real.sin (t / 5000)) (Real.cos (t / 5000)) 0
            (Real.cos 1) (Real.sin 1)) := by
  have hn : Real.sqrt (Real.sin (t / 5000) * Real.sin (t / 5000) +
      Real.cos (t / 5000) * Real.cos (t / 5000) + 0 * 0) = 1 := by
    rw [show Real.sin (t / 5000) * Real.sin (t / 5000) +
        Real.cos (t / 5000) * Real.cos (t / 5000) + 0 * 0 =
        Real.sin (t / 5000) ^ 2 + Real.cos (t / 5000) ^ 2 by ring,
      Real.sin_sq_add_cos_sq, Real.sqrt_one]
  have h2 := gtm_decomp ⟨Real.sin, Real.cos, Real.tan, Real.sqrt, Real.pi⟩ a t hn
  have hf : Real.tan (Real.pi * (1 / 2) - 1 / 2 * (2 * Real.pi / 5)) =
      (Real.tan (2 * Real.pi / 5 / 2))⁻¹ := by
    rw [show Real.pi * (1 / 2) - 1 / 2 * (2 * Real.pi / 5) =
        Real.pi / 2 - 2 * Real.pi / 5 / 2 by ring]
    exact Real.tan_pi_div_two_sub _
  simp only [h2, hf]

/-- Time enters `getTransformationMatrix` only through `sin` and `cos` of
`Date.now() / 5000`. -/
theorem gtm_congr_now {α : Type} [Field α] (M : JsMath α) (a t t' : α)
    (hsin : M.sin (t / 5000) = M.sin (t' / 5000))
    (hcos : M.cos (t / 5000) = M.cos (t' / 5000)) :
    getTransformationMatrix M a t = getTransformationMatrix M a t' := by
  simp only [getTransformationMatrix, rotationAxis, hsin, hcos]

theorem moduleInit_wf (M : JsMath α) (aspect : α) (h : MatHeap α) :
    HeapWF M (moduleInit M aspect h).1 (moduleInit M aspect h).2 := by
  refine ⟨?_, ?_, ?_, ?_⟩ <;>
    (simp [moduleInit, MatHeap.alloc, HeapWF]; try omega)

/-- The returned reference is always the module-level buffer's address. -/
theorem gtmRef_fst (M : JsMath α) (ctx : ModuleCtx α) (t : α) (h : MatHeap α) :
    (getTransformationMatrixRef M ctx t h).1 = ctx.mvpAddr := rfl

/-- What the call leaves behind in the module buffer is exactly the pure value
of `getTransformationMatrix`. -/
theorem gtmRef_store (M : JsMath α) (ctx : ModuleCtx α) (t : α) (h : MatHeap α)
    (hwf : HeapWF M ctx h) :
    ((getTransformationMatrixRef M ctx t h).2).store ctx.mvpAddr =
      getTransformationMatrix M ctx.aspect t := by
  obtain ⟨hp, hm, hpm, hproj⟩ := hwf
  have hpn : ctx.projAddr ≠ h.next := Nat.ne_of_lt hp
  simp only [getTransformationMatrixRef, MatHeap.alloc, MatHeap.write,
    getTransformationMatrix, rotationAxis]
  simp [hpn, hproj]

/-- Addresses other than the view-matrix allocation and the module buffer are
untouched by a call. -/
theorem gtmRef_frame (M : JsMath α) (ctx : ModuleCtx α) (t : α) (h : MatHeap α)
    (a : ℕ) (ha1 : a ≠ h.next) (ha2 : a ≠ ctx.mvpAddr) :
    ((getTransformationMatrixRef M ctx t h).2).store a = h.store a := by
  simp [getTransformationMatrixRef, MatHeap.alloc, MatHeap.write, ha1, ha2]

theorem gtmRef_next (M : JsMath α) (ctx : ModuleCtx α) (t : α) (h : MatHeap α) :
    ((getTransformationMatrixRef M ctx t h).2).next = h.next + 1 := rfl

/-- The heap invariant survives a call. -/
theorem gtmRef_wf (M : JsMath α) (ctx : ModuleCtx α) (t : α) (h : MatHeap α)
    (hwf : HeapWF M ctx h) :
    HeapWF M ctx (getTransformationMatrixRef M ctx t h).2 := by
  obtain ⟨hp, hm, hpm, hproj⟩ := hwf
  refine ⟨?_, ?_, hpm, ?_⟩
  · rw [gtmRef_next]; omega
  · rw [gtmRef_next]; omega
  · rw [gtmRef_frame M ctx t h ctx.projAddr (Nat.ne_of_lt hp) hpm]
    exact hproj

theorem applyWrite_full (u : Fin 16 → α) (m : Mat4 α) :
    applyWrite u 0 m 0 64 = serialize m := by
  funext i
  simp [applyWrite, serialize, i.isLt]

theorem frame_trace (M : JsMath α) (t : α) (s : SysState α)
    (hwf : HeapWF M s.ctx s.heap) :
    (frame M t s).2 =
      [.queued (.writeBuffer 0 (getTransformationMatrix M s.ctx.aspect t) 0 64),
       .acquiredView s.surfaceNext,
       .queued (.submit { s.passDesc with colorView := some s.surfaceNext }
         [.setPipeline, .setBindGroup 0, .setVertexBuffer 0,
          .draw cubeVertexCount, .endPass]),
       .scheduledNextFrame] := by
  simp only [frame]
  rw [gtmRef_fst, gtmRef_store M s.ctx t s.heap hwf]

theorem frame_state (M : JsMath α) (t : α) (s : SysState α)
    (hwf : HeapWF M s.ctx s.heap) :
    (frame M t s).1 =
      ⟨(getTransformationMatrixRef M s.ctx t s.heap).2, s.ctx, s.resources,
        { s.passDesc with colorView := some s.surfaceNext },
        serialize (getTransformationMatrix M s.ctx.aspect t),
        s.surfaceNext + 1⟩ := by
  simp only [frame, applyOp]
  rw [gtmRef_fst, gtmRef_store M s.ctx t s.heap hwf, applyWrite_full]

theorem frame_wf (M : JsMath α) (t : α) (s : SysState α)
    (hwf : HeapWF M s.ctx s.heap) :
    HeapWF M ((frame M t s).1).ctx ((frame M t s).1).heap :=
  gtmRef_wf M s.ctx t s.heap hwf

theorem runQueue_append (u : Fin 16 → α) (l1 l2 : List (TickEvent α)) :
    runQueue u (l1 ++ l2) =
      ((runQueue (runQueue u l1).1 l2).1,
        (runQueue u l1).2 ++ (runQueue (runQueue u l1).1 l2).2) := by
  induction l1 generalizing u with
  | nil => simp [runQueue]
  | cons e rest ih =>
      cases e with
      | queued op =>
          cases op with
          | writeBuffer o d so bl => simp [runQueue, ih]
          | submit desc cmds => simp [runQueue, ih]
      | acquiredView v => simp [runQueue, ih]
      | scheduledNextFrame => simp [runQueue, ih]

theorem runTicks_draws (M : JsMath α) (ts : List α) (s : SysState α)
    (hwf : HeapWF M s.ctx s.heap) :
    (runQueue s.uniform (runTicks M ts s).2).2 =
      expectedDraws M s.ctx.aspect s.surfaceNext ts := by
  induction ts generalizing s with
  | nil => simp [runTicks, runQueue, expectedDraws]
  | cons t ts ih =>
      have hwf1 := frame_wf M t s hwf
      have ih1 := ih (frame M t s).1 hwf1
      rw [frame_state M t s hwf] at ih1
      simp only [runTicks]
      rw [runQueue_append, frame_trace M t s hwf]
      simp only [runQueue, applyWrite_full, expectedDraws]
      rw [frame_state M t s hwf]
      simp only [List.singleton_append, List.cons_append, List.nil_append]
      exact congrArg _ ih1

theorem runTicks_resources (M : JsMath α) (ts : List α) (s : SysState α) :
    (runTicks M ts s).1.resources = s.resources ∧
      (runTicks M ts s).1.ctx = s.ctx := by
  induction ts generalizing s with
  | nil => exact ⟨rfl, rfl⟩
  | cons t ts ih => simpa [runTicks, frame] using ih (frame M t s).1

end Lemmas

section Claims

/-- C1 (amended): for every call with the fixed startup aspect ratio `a` at a
call where `Date.now()` returned `t` (milliseconds), the 16 contiguous values
returned by `getTransformationMatrix`, read in column-major order, equal
projection × view, where the projection is the perspective matrix with
vertical field of view 2π/5 (focal factor = cotangent of half the fov),
aspect `a`, near 1.0, far 100.0, and the view is the identity translated by
(0, 0, −10) then rotated by the fixed angle 1 radian about the unit axis
(sin t', cos t', 0) with t' = t / 5000 — i.e. the clock reading in
milliseconds divided by 5000, not wall-clock seconds divided by 5000. -/
theorem c1_transformation_matrix (a t : ℝ) :
    (getTransformationMatrix
        (⟨Real.sin, Real.cos, Real.tan, Real.sqrt, Real.pi⟩ : JsMath ℝ)
        a t).toMatrix =
      perspective4 ((Real.tan (2 * Real.pi / 5 / 2))⁻¹) a 1 100 *
        (translation4 0 0 (-10) *
          rodrigues4 (Real.sin (t / 5000)) (Real.cos (t / 5000)) 0
            (Real.cos 1) (Real.sin 1)) :=
  gtm_real_decomp a t

/-- C1 witness: the amended claim at the concrete input `a = 1`, `t = 0`. -/
theorem c1_transformation_matrix_witness :
    (getTransformationMatrix
        (⟨Real.sin, Real.cos, Real.tan, Real.sqrt, Real.pi⟩ : JsMath ℝ)
        1 0).toMatrix =
      perspective4 ((Real.tan (2 * Real.pi / 5 / 2))⁻¹) 1 1 100 *
        (translation4 0 0 (-10) *
          rodrigues4 (Real.sin (0 / 5000)) (Real.cos (0 / 5000)) 0
            (Real.cos 1) (Real.sin 1)) :=
  c1_transformation_matrix 1 0

/-- C1 counterexample: the claim as stated reads the rotation angle as
wall-clock *seconds* / 5000, but the code divides `Date.now()` —
*milliseconds* — by 5000.  At the call where `Date.now() = 2500π` ms
(wall-clock seconds = 2500π/1000), the matrix the code returns is not the
claimed one: the code's axis angle is π/2 while the claimed angle is
π/2000, and entry (3,0) of the result differs (0 versus
cos(π/2000)·sin 1 > 0). -/
theorem c1_counterexample :
    (getTransformationMatrix
        (⟨Real.sin, Real.cos, Real.tan, Real.sqrt, Real.pi⟩ : JsMath ℝ)
        1 (2500 * Real.pi)).toMatrix ≠
      perspective4 ((Real.tan (2 * Real.pi / 5 / 2))⁻¹) 1 1 100 *
        (translation4 0 0 (-10) *
          rodrigues4 (Real.sin (2500 * Real.pi / 1000 / 5000))
            (Real.cos (2500 * Real.pi / 1000 / 5000)) 0
            (Real.cos 1) (Real.sin 1)) := by
  rw [gtm_real_decomp]
  intro h
  have h30 := congrFun (congrFun h (3 : Fin 4)) (0 : Fin 4)
  rw [show (2500 * Real.pi / 5000 : ℝ) = Real.pi / 2 by ring,
    show (2500 * Real.pi / 1000 / 5000 : ℝ) = Real.pi / 2000 by ring] at h30
  simp [perspective4, translation4, rodrigues4, Matrix.mul_apply,
    Fin.sum_univ_four, Real.cos_pi_div_two, Matrix.cons_val_zero,
    Matrix.cons_val_one, Matrix.head_cons, Matrix.cons_val_two,
    Matrix.cons_val_three, Matrix.vecTail, Matrix.vecHead] at h30
  have hcos : 0 < Real.cos (Real.pi / 2000) := by
    refine Real.cos_pos_of_mem_Ioo ⟨?_, ?_⟩ <;> nlinarith [Real.pi_pos]
  have hsin : 0 < Real.sin 1 :=
    Real.sin_pos_of_pos_of_lt_pi one_pos (by nlinarith [Real.pi_gt_three])
  rcases h30 with h30 | h30 <;> linarith

/-- C6: the Transformation Engine is deterministic — the value left in the
module-level output buffer by a call at clock reading `t` is the same from any
two module states satisfying the startup invariant (whose only
matrix-relevant content is the fixed projection matrix), and equals the pure
function of (aspect ratio, clock reading).  There is no hidden state beyond
the fixed projection matrix. -/
theorem c6_deterministic {α : Type} [Field α] (M : JsMath α)
    (ctx : ModuleCtx α) (t : α) (h h' : MatHeap α)
    (hwf : HeapWF M ctx h) (hwf' : HeapWF M ctx h') :
    ((getTransformationMatrixRef M ctx t h).2).store
        (getTransformationMatrixRef M ctx t h).1 =
      ((getTransformationMatrixRef M ctx t h').2).store
        (getTransformationMatrixRef M ctx t h').1 ∧
      ((getTransformationMatrixRef M ctx t h).2).store
        (getTransformationMatrixRef M ctx t h).1 =
      getTransformationMatrix M ctx.aspect t := by
  rw [gtmRef_fst, gtmRef_fst, gtmRef_store M ctx t h hwf,
    gtmRef_store M ctx t h' hwf']
  exact ⟨rfl, rfl⟩

/-- C6 witness: the deterministic-output theorem applied at the concrete
post-initialization rational state, at clock reading 0. -/
theorem c6_deterministic_witness :
    HeapWF qMath qCtx qHeap ∧
      (((getTransformationMatrixRef qMath qCtx 0 qHeap).2).store
          (getTransformationMatrixRef qMath qCtx 0 qHeap).1 =
        ((getTransformationMatrixRef qMath qCtx 0 qHeap).2).store
          (getTransformationMatrixRef qMath qCtx 0 qHeap).1 ∧
        ((getTransformationMatrixRef qMath qCtx 0 qHeap).2).store
          (getTransformationMatrixRef qMath qCtx 0 qHeap).1 =
        getTransformationMatrix qMath qCtx.aspect 0) :=
  ⟨moduleInit_wf qMath 1 qHeap0,
    c6_deterministic qMath qCtx 0 qHeap qHeap
      (moduleInit_wf qMath 1 qHeap0) (moduleInit_wf qMath 1 qHeap0)⟩

/-- C7 (amended): the rotation axis (and with it the whole output matrix) is
the same at clock reading 0 and at any clock reading `k · 2π · 5000`, i.e. a
period that is a multiple of 2π times the time-normalization divisor 5000 —
not a bare multiple of the divisor, since sin/cos have period 2π, not 1. -/
theorem c7_axis_period (a : ℝ) (k : ℤ) :
    gtmAxis (⟨Real.sin, Real.cos, Real.tan, Real.sqrt, Real.pi⟩ : JsMath ℝ)
        ((k : ℝ) * (2 * Real.pi) * 5000) =
      gtmAxis (⟨Real.sin, Real.cos, Real.tan, Real.sqrt, Real.pi⟩ : JsMath ℝ)
        0 ∧
      getTransformationMatrix
          (⟨Real.sin, Real.cos, Real.tan, Real.sqrt, Real.pi⟩ : JsMath ℝ)
          a ((k : ℝ) * (2 * Real.pi) * 5000) =
        getTransformationMatrix
          (⟨Real.sin, Real.cos, Real.tan, Real.sqrt, Real.pi⟩ : JsMath ℝ)
          a 0 := by
  have ht : ((k : ℝ) * (2 * Real.pi) * 5000) / 5000 = (k : ℝ) * (2 * Real.pi) :=
    mul_div_cancel_right₀ _ (by norm_num)
  have hsin : Real.sin (((k : ℝ) * (2 * Real.pi) * 5000) / 5000) =
      Real.sin ((0 : ℝ) / 5000) := by
    rw [ht, show ((0 : ℝ) / 5000) = 0 by norm_num, Real.sin_zero,
      show (k : ℝ) * (2 * Real.pi) = ((2 * k : ℤ) : ℝ) * Real.pi by
        push_cast; ring,
      Real.sin_int_mul_pi]
  have hcos : Real.cos (((k : ℝ) * (2 * Real.pi) * 5000) / 5000) =
      Real.cos ((0 : ℝ) / 5000) := by
    rw [ht, show ((0 : ℝ) / 5000) = 0 by norm_num, Real.cos_zero,
      Real.cos_int_mul_two_pi]
  constructor
  · simp only [gtmAxis, rotationAxis, hsin, hcos]
  · exact gtm_congr_now _ a _ 0 hsin hcos

/-- C7 counterexample: the claim as stated takes the period to be any multiple
of the divisor 5000 itself; but at clock reading 1·5000 the axis angle is the
integer 1, and sin 1 ≠ sin 0, so the axis differs from the one at reading 0
(sin/cos have period 2π, not 1). -/
theorem c7_counterexample :
    gtmAxis (⟨Real.sin, Real.cos, Real.tan, Real.sqrt, Real.pi⟩ : JsMath ℝ)
        (1 * 5000) ≠
      gtmAxis (⟨Real.sin, Real.cos, Real.tan, Real.sqrt, Real.pi⟩ : JsMath ℝ)
        0 := by
  intro h
  have hx := congrArg Vec3.x h
  simp only [gtmAxis, rotationAxis] at hx
  rw [show ((1 : ℝ) * 5000) / 5000 = 1 by norm_num,
    show ((0 : ℝ) / 5000) = 0 by norm_num, Real.sin_zero] at hx
  have : 0 < Real.sin 1 :=
    Real.sin_pos_of_pos_of_lt_pi one_pos (by nlinarith [Real.pi_gt_three])
  rw [hx] at this
  exact lt_irrefl 0 this

/-- C10: every call to `getTransformationMatrix` returns the address of the
single module-level `modelViewProjectionMatrix` buffer (an address allocated
at module initialization, below the current allocation frontier — not a fresh
matrix): two successive calls return identical references, and after the
second call the shared buffer holds the second call's value, so the value
returned by the earlier call has been overwritten. -/
theorem c10_shared_output_buffer {α : Type} [Field α] (M : JsMath α)
    (ctx : ModuleCtx α) (t1 t2 : α) (h : MatHeap α) (hwf : HeapWF M ctx h) :
    (getTransformationMatrixRef M ctx t1 h).1 =
        (getTransformationMatrixRef M ctx t2
          (getTransformationMatrixRef M ctx t1 h).2).1 ∧
      (getTransformationMatrixRef M ctx t1 h).1 = ctx.mvpAddr ∧
      (getTransformationMatrixRef M ctx t1 h).1 < h.next ∧
      ((getTransformationMatrixRef M ctx t2
          (getTransformationMatrixRef M ctx t1 h).2).2).store
          (getTransformationMatrixRef M ctx t1 h).1 =
        getTransformationMatrix M ctx.aspect t2 := by
  refine ⟨rfl, rfl, hwf.2.1, ?_⟩
  rw [gtmRef_fst]
  exact gtmRef_store M ctx t2 _ (gtmRef_wf M ctx t1 h hwf)

/-- C10 witness: the aliasing theorem at the concrete post-initialization
rational state, for calls at clock readings 0 and 1. -/
theorem c10_shared_output_buffer_witness :
    HeapWF qMath qCtx qHeap ∧
      ((getTransformationMatrixRef qMath qCtx 0 qHeap).1 =
        (getTransformationMatrixRef qMath qCtx 1
          (getTransformationMatrixRef qMath qCtx 0 qHeap).2).1 ∧
      (getTransformationMatrixRef qMath qCtx 0 qHeap).1 = qCtx.mvpAddr ∧
      (getTransformationMatrixRef qMath qCtx 0 qHeap).1 < qHeap.next ∧
      ((getTransformationMatrixRef qMath qCtx 1
          (getTransformationMatrixRef qMath qCtx 0 qHeap).2).2).store
          (getTransformationMatrixRef qMath qCtx 0 qHeap).1 =
        getTransformationMatrix qMath qCtx.aspect 1) :=
  ⟨moduleInit_wf qMath 1 qHeap0,
    c10_shared_output_buffer qMath qCtx 0 1 qHeap (moduleInit_wf qMath 1 qHeap0)⟩

/-- C2: one tick of `frame` performs, in order: compute the MVP matrix for the
tick's clock reading; enqueue a write of exactly its 64 bytes at offset 0 of
the uniform buffer (a full overwrite — the post-tick uniform contents are the
serialization of the tick's matrix, whatever they were before); acquire a
fresh render-target view for this tick; submit one render pass whose
descriptor clears the color target to (0.5, 0.5, 0.5, 1.0) and the depth
target to 1.0 and whose commands bind the pipeline, bind the uniform bind
group at group 0, bind the vertex buffer at slot 0, and issue one non-indexed
draw of the full vertex count 36; then schedule the next tick. -/
theorem c2_frame_tick {α : Type} [Field α] (M : JsMath α) (t : α)
    (s : SysState α) (dv : ℕ) (cv : Option ℕ)
    (hwf : HeapWF M s.ctx s.heap)
    (hdesc : s.passDesc = { mainPassDesc (α := α) dv with colorView := cv }) :
    (frame M t s).2 =
      [.queued (.writeBuffer 0 (getTransformationMatrix M s.ctx.aspect t) 0 64),
       .acquiredView s.surfaceNext,
       .queued (.submit
         { colorView := some s.surfaceNext,
           clearValue := ⟨1 / 2, 1 / 2, 1 / 2, 1⟩,
           loadOp := "clear", storeOp := "store",
           depthView := dv, depthClearValue := 1,
           depthLoadOp := "clear", depthStoreOp := "store" }
         [.setPipeline, .setBindGroup 0, .setVertexBuffer 0,
          .draw cubeVertexCount, .endPass]),
       .scheduledNextFrame] ∧
      (frame M t s).1.uniform =
        serialize (getTransformationMatrix M s.ctx.aspect t) ∧
      cubeVertexCount = 36 := by
  refine ⟨?_, ?_, rfl⟩
  · rw [frame_trace M t s hwf, hdesc]
    rfl
  · rw [frame_state M t s hwf]

/-- C2 witness: one tick from the concrete post-initialization rational state
at clock reading 0. -/
theorem c2_frame_tick_witness :
    (HeapWF qMath qSys.ctx qSys.heap ∧
        qSys.passDesc = { mainPassDesc (α := ℚ) 7 with colorView := none }) ∧
      ((frame qMath 0 qSys).2 =
        [.queued (.writeBuffer 0
            (getTransformationMatrix qMath qSys.ctx.aspect 0) 0 64),
         .acquiredView qSys.surfaceNext,
         .queued (.submit
           { colorView := some qSys.surfaceNext,
             clearValue := ⟨1 / 2, 1 / 2, 1 / 2, 1⟩,
             loadOp := "clear", storeOp := "store",
             depthView := 7, depthClearValue := 1,
             depthLoadOp := "clear", depthStoreOp := "store" }
           [.setPipeline, .setBindGroup 0, .setVertexBuffer 0,
            .draw cubeVertexCount, .endPass]),
         .scheduledNextFrame] ∧
        (frame qMath 0 qSys).1.uniform =
          serialize (getTransformationMatrix qMath qSys.ctx.aspect 0) ∧
        cubeVertexCount = 36) :=
  ⟨⟨moduleInit_wf qMath 1 qHeap0, rfl⟩,
    c2_frame_tick qMath 0 qSys 7 none (moduleInit_wf qMath 1 qHeap0) rfl⟩

/-- C3: the uniform write of a tick is enqueued before that tick's submit, the
next tick is scheduled only after the submit, and the queue — processing
enqueued work in submission order — has every submitted pass of a run draw
with exactly the matrix of its own tick (and its own fresh view): frame N
renders with frame N's matrix, never a stale or future one.  Ticks are
sequential by construction of the frame loop (`runTicks` folds `frame`). -/
theorem c3_queue_ordering {α : Type} [Field α] (M : JsMath α) (ts : List α)
    (s : SysState α) (hwf : HeapWF M s.ctx s.heap) :
    (runQueue s.uniform (runTicks M ts s).2).2 =
        expectedDraws M s.ctx.aspect s.surfaceNext ts ∧
      ∀ (t : α) (s' : SysState α), HeapWF M s'.ctx s'.heap →
        (frame M t s').2 =
          [.queued (.writeBuffer 0
              (getTransformationMatrix M s'.ctx.aspect t) 0 64),
           .acquiredView s'.surfaceNext,
           .queued (.submit { s'.passDesc with colorView := some s'.surfaceNext }
             [.setPipeline, .setBindGroup 0, .setVertexBuffer 0,
              .draw cubeVertexCount, .endPass]),
           .scheduledNextFrame] :=
  ⟨runTicks_draws M ts s hwf, fun t s' hwf' => frame_trace M t s' hwf'⟩

/-- C3 witness: a two-tick run from the concrete post-initialization rational
state. -/
theorem c3_queue_ordering_witness :
    HeapWF qMath qSys.ctx qSys.heap ∧
      ((runQueue qSys.uniform (runTicks qMath [0, 1] qSys).2).2 =
        expectedDraws qMath qSys.ctx.aspect qSys.surfaceNext [0, 1] ∧
      ∀ (t : ℚ) (s' : SysState ℚ), HeapWF qMath s'.ctx s'.heap →
        (frame qMath t s').2 =
          [.queued (.writeBuffer 0
              (getTransformationMatrix qMath s'.ctx.aspect t) 0 64),
           .acquiredView s'.surfaceNext,
           .queued (.submit { s'.passDesc with colorView := some s'.surfaceNext }
             [.setPipeline, .setBindGroup 0, .setVertexBuffer 0,
              .draw cubeVertexCount, .endPass]),
           .scheduledNextFrame]) :=
  ⟨moduleInit_wf qMath 1 qHeap0,
    c3_queue_ordering qMath [0, 1] qSys (moduleInit_wf qMath 1 qHeap0)⟩

/-- C4: after construction the GPU Resource Set is never mutated — any run of
the frame loop leaves the resources record (vertex buffer contents, pipeline
state, depth texture, bind group, uniform buffer size) and the module context
unchanged, and a single tick changes the render-pass descriptor only in its
color-attachment view; the pipeline `main` builds has triangle-list topology,
back-face culling, depth test write-enabled with "less" comparison, and an
at-least-24-bit depth format, and the vertex buffer holds exactly the mesh
data written at creation. -/
theorem c4_resources_immutable {α : Type} [Field α] (M : JsMath α)
    (ts : List α) (t : α) (s : SysState α) (cubeData : List α) (fmt : String)
    (w h : ℕ) :
    (runTicks M ts s).1.resources = s.resources ∧
      (runTicks M ts s).1.ctx = s.ctx ∧
      (frame M t s).1.resources = s.resources ∧
      (frame M t s).1.passDesc =
        { s.passDesc with colorView := some s.surfaceNext } ∧
      (mainResources cubeData fmt w h).verticesBufferData = cubeData ∧
      (mainResources cubeData fmt w h).pipeline.topology = "triangle-list" ∧
      (mainResources cubeData fmt w h).pipeline.cullMode = "back" ∧
      (mainResources cubeData fmt w h).pipeline.depthWriteEnabled = true ∧
      (mainResources cubeData fmt w h).pipeline.depthCompare = "less" ∧
      24 ≤ depthFormatBits (mainResources cubeData fmt w h).pipeline.depthFormat := by
  refine ⟨(runTicks_resources M ts s).1, (runTicks_resources M ts s).2,
    rfl, rfl, rfl, rfl, rfl, rfl, rfl, ?_⟩
  norm_num [mainResources, mainPipeline, depthFormatBits]

/-- C5: initialization is all-or-nothing — the frame loop is scheduled exactly
when initialization succeeded, and initialization succeeds exactly when the
environment provides GPU capability, canvas, adapter, device and context and
all six GPU Resource Set creation steps succeed; any failure aborts before
the frame loop ever starts, with no partial-success state. -/
theorem c5_init_all_or_nothing {α : Type} [Field α] (env : Env) (g : GpuSteps)
    (cubeData : List α) (fmt : String) (w h : ℕ) :
    ((boot env g cubeData fmt w h).2 = true ↔
        (boot (α := α) env g cubeData fmt w h).1.isOk = true) ∧
      ((boot (α := α) env g cubeData fmt w h).1.isOk = true ↔
        (env.hasNavigatorGpu = true ∧ env.hasCanvas = true ∧
          env.adapterRequest = .ok (some ()) ∧ env.deviceRequest = some () ∧
          env.hasContext = true ∧ g.allOk = true)) := by
  obtain ⟨ng, hc, ar, dr, hx⟩ := env
  obtain ⟨g1, g2, g3, g4, g5, g6⟩ := g
  cases ng
  · simp [boot, Except.isOk, Except.toBool]
  · cases hc
    · simp [boot, Except.isOk, Except.toBool]
    · rcases ar with u | o
      · simp [boot, Except.isOk, Except.toBool]
      · rcases o with _ | u
        · simp [boot, Except.isOk, Except.toBool]
        · rcases dr with _ | u
          · simp [boot, Except.isOk, Except.toBool]
          · cases hx
            · simp [boot, Except.isOk, Except.toBool]
            · cases g1
              · simp [boot, GpuSteps.allOk, Except.isOk, Except.toBool]
              · cases g2
                · simp [boot, GpuSteps.allOk, Except.isOk, Except.toBool]
                · cases g3
                  · simp [boot, GpuSteps.allOk, Except.isOk, Except.toBool]
                  · cases g4
                    · simp [boot, GpuSteps.allOk, Except.isOk, Except.toBool]
                    · cases g5
                      · simp [boot, GpuSteps.allOk, Except.isOk, Except.toBool]
                      · cases g6 <;> simp [boot, GpuSteps.allOk, Except.isOk, Except.toBool]

/-- C8: mesh construction is fail-fast — the constructor succeeds exactly when
the byte length of the interleaved floats equals vertex count × stride; for
the fixed cube mesh the byte length is 36 × stride; and in the pipeline's
vertex layout the position (float32x4) and uv (float32x2) attribute byte
ranges are disjoint and each fits within the stride. -/
theorem c8_mesh_layout :
    (∀ (floats : List ℚ) (count stride : ℕ),
        (mkMesh floats count stride).isSome = true ↔
          4 * floats.length = count * stride) ∧
      4 * cubeVertexArrayLength = cubeVertexCount * cubeVertexSize ∧
      ∀ fmt : String,
        (mainPipeline fmt).positionOffset +
            vertexFormatBytes (mainPipeline fmt).positionFormat ≤
          (mainPipeline fmt).uvOffset ∧
        (mainPipeline fmt).positionOffset +
            vertexFormatBytes (mainPipeline fmt).positionFormat ≤
          (mainPipeline fmt).arrayStride ∧
        (mainPipeline fmt).uvOffset +
            vertexFormatBytes (mainPipeline fmt).uvFormat ≤
          (mainPipeline fmt).arrayStride := by
  refine ⟨?_, by decide, ?_⟩
  · intro floats count stride
    unfold mkMesh
    split <;> simp_all
  · intro fmt
    refine ⟨?_, ?_, ?_⟩ <;>
      norm_num [mainPipeline, vertexFormatBytes, cubeVertexSize,
        cubePositionOffset, cubeUVOffset]

/-- C9 (amended): the two variants' transformation functions are the same
parametric function, differing only in the camera distance (−10 versus −4)
and the time-normalization divisor (5000 versus 1000); the second variant's
rendering code, however, is commented out — its `main` only logs, and its
startup never schedules a frame loop, so the active second variant is not a
rendering program. -/
theorem c9_variants {α : Type} [Field α] :
    (∀ (M : JsMath α) (a t : α),
        getTransformationMatrix M a t =
            getTransformationMatrixGen M (-10) 5000 a t ∧
          getTransformationMatrix2 M a t =
            getTransformationMatrixGen M (-4) 1000 a t) ∧
      ∀ env : Env, (boot2 env).2 = false := by
  refine ⟨fun M a t => ⟨rfl, rfl⟩, ?_⟩
  intro env
  obtain ⟨ng, hc, ar, dr, hx⟩ := env
  cases ng
  · rfl
  · cases hc
    · rfl
    · rcases ar with u | o
      · rfl
      · rcases o with _ | u
        · rfl
        · rcases dr with _ | u
          · rfl
          · cases hx <;> rfl

/-- C9 counterexample: on the identical fully-successful environment, the
first variant schedules the frame loop and the second does not — the two
variants as written are not behaviorally the same rendering program. -/
theorem c9_counterexample :
    (boot2 ⟨true, true, .ok (some ()), some (), true⟩).2 ≠
      (boot (α := ℚ) ⟨true, true, .ok (some ()), some (), true⟩
        ⟨true, true, true, true, true, true⟩ [] "bgra8unorm" 640 480).2 := by
  decide

end Claims

end WebgpuCube
